import Mathlib

/-!
Shallow embedding, in Lean 4, of the CVR (Cost Value Reconciliation) and
budget-alerting core of the NEW-DASHBOARD backend.

The embedding follows the Python sources:
  backend/utils/update_cvr.py   (CVRUpdater: cell update rules, P&L / invoice updates)
  backend/utils/budget_check.py (BudgetAlertSystem: thresholds and tiering)
  backend/utils/parse_pnl.py    (PnLParser: expense classification and P&L normalisation)
  backend/utils/parse_invoice.py (InvoiceParser: invoice normalisation)
  backend/crud.py               (alert creation and de-duplication, overrun checks)
  backend/models.py             (ExpenseCategory and the persistent data model)

Python floats are modelled as exact rationals (`Rat`); currency amounts never
exercise float-specific behaviour in the properties below.  Python strings are
`String`, with the handful of `str` methods used by the code re-implemented
over character lists so that they compute inside the kernel.  Code that can
raise at run time (attribute errors, type errors, division by zero) is
modelled with `Except String`.
-/

namespace NDA

deriving instance DecidableEq for Except

/-- ASCII whitespace, modelling the characters Python's `str.strip()` removes
for the inputs that occur here. -/
def isPySpace (c : Char) : Bool := c == ' ' || c == '\t' || c == '\n' || c == '\r'

/-- Python `str.lower()` (ASCII range, which covers all keywords in the code). -/
def lowerStr (s : String) : String := String.mk (s.data.map Char.toLower)

/-- Python `str.upper()` (ASCII range). -/
def upperStr (s : String) : String := String.mk (s.data.map Char.toUpper)

/-- Python `str.strip()`. -/
def stripStr (s : String) : String :=
  String.mk (((s.data.dropWhile isPySpace).reverse.dropWhile isPySpace).reverse)

/-- `listStarts hay needle` : needle is a prefix of hay. -/
def listStarts : List Char → List Char → Bool
  | _, [] => true
  | [], _ :: _ => false
  | c :: cs, d :: ds => c == d && listStarts cs ds

/-- `listHas hay needle` : needle occurs contiguously inside hay.  This models
both Python's `needle in hay` on strings and SQLAlchemy's
`column.contains(needle)` (SQL `LIKE '%needle%'`). -/
def listHas (hay needle : List Char) : Bool :=
  match hay with
  | [] => listStarts [] needle
  | c :: t => listStarts (c :: t) needle || listHas t needle

/-- Substring test on strings (Python `in` / SQL LIKE). -/
def strContains (hay needle : String) : Bool := listHas hay.data needle.data

/-- Zero-pad a digit string on the left to width `w`. -/
def zeroPad (w : Nat) (s : String) : String :=
  if s.length < w then String.mk (List.replicate (w - s.length) '0') ++ s else s

/-- Fixed-point decimal rendering of a rational with `d` digits after the
point; models the Python f-string formats `:.2f` / `:.1f` used when
building alert messages and sheet text (ties rounded up; the exact tie
behaviour of binary floats is immaterial to every property below, which
never inspects the digits of a rendered number). -/
def ratFixed (d : Nat) (x : Rat) : String :=
  let scale : Nat := 10 ^ d
  let r : Int := ((x * (scale : Rat)) + 1 / 2).floor
  let sign := if r < 0 then "-" else ""
  let a := r.natAbs
  sign ++ Nat.repr (a / scale) ++ "." ++ zeroPad d (Nat.repr (a % scale))

/-! ## Spreadsheet cells (openpyxl worksheets, as used by `update_cvr.py`) -/

/-- The value held by one worksheet cell: empty (`None`), a number, or a
string (a string starting with `=` is a formula). -/
inductive CellValue where
  | empty : CellValue
  | num : Rat → CellValue
  | str : String → CellValue
deriving DecidableEq

/-- A worksheet: a total assignment of values to cell addresses such as
`"C5"`.  Unset cells read as `empty` (openpyxl's `None`). -/
def Sheet : Type := String → CellValue

/-- `sheet[addr] = v` in openpyxl. -/
def setCell (sheet : Sheet) (addr : String) (v : CellValue) : Sheet :=
  fun a => if a = addr then v else sheet a

/-- `isinstance(v, str) and v.startswith('=')` (update_cvr.py line 309). -/
def isFormula (v : CellValue) : Bool :=
  match v with
  | .str s =>
    match s.data with
    | '=' :: _ => true
    | _ => false
  | _ => false

/-! ## Update rules (`CVRUpdater.create_default_rules`, update_cvr.py 49-88) -/

/-- The `update_conditions` block of the rules JSON (the two members the
update logic reads; `backup_before_update` and `log_all_changes` are never
consulted by `_update_cell`). -/
structure UpdateConditions where
  only_positive_values : Bool
  preserve_formulas : Bool
deriving DecidableEq

/-- The rules JSON of `CVRUpdater` (`update_rules.json`). -/
structure UpdateRules where
  cell_mappings : List (String × String)
  cost_categories : List (String × List String)
  revenue_categories : List (String × List String)
  update_conditions : UpdateConditions
deriving DecidableEq

/-- The default rules created by `create_default_rules` (update_cvr.py 51-80). -/
def defaultUpdateRules : UpdateRules :=
  { cell_mappings :=
      [("total_contract_value", "C3"),
       ("total_invoiced", "C4"),
       ("total_costs", "C5"),
       ("material_costs", "C6"),
       ("labour_costs", "C7"),
       ("plant_costs", "C8"),
       ("subcontract_costs", "C9"),
       ("projected_margin", "C10"),
       ("variations_approved", "C11"),
       ("variations_pending", "C12")],
    cost_categories :=
      [("material", ["Material", "Materials", "MATERIALS", "MAT"]),
       ("labour", ["Labour", "Labor", "LABOUR", "LAB", "Wages"]),
       ("plant", ["Plant", "PLANT", "Machinery", "Equipment", "EQUIP"]),
       ("subcontract", ["Subcontract", "SUB", "Subcontractor", "SC"])],
    revenue_categories :=
      [("main_contract", ["Main Contract", "Contract", "PRIMARY"]),
       ("variations", ["Variation", "VAR", "Additional Work", "EXTRA"])],
    update_conditions :=
      { only_positive_values := true, preserve_formulas := true } }

/-- `CVRUpdater._update_cell` (update_cvr.py 292-314): update the mapped cell
if the rule conditions permit; returns the new sheet and whether an update
was applied (`False` means silently skipped). -/
def updateCell (rules : UpdateRules) (sheet : Sheet) (cellKey : String) (value : Rat) :
    Sheet × Bool :=
  match List.lookup cellKey rules.cell_mappings with
  | none => (sheet, false)
  | some addr =>
    if rules.update_conditions.only_positive_values ∧ value < 0 then (sheet, false)
    else if rules.update_conditions.preserve_formulas ∧ isFormula (sheet addr) then
      (sheet, false)
    else (setCell sheet addr (.num value), true)

/-- `CVRUpdater._calculate_category_cost` (update_cvr.py 316-326): sum the
expense-breakdown entries whose key contains (case-insensitively) any of the
category's configured keywords. -/
def calculateCategoryCost (rules : UpdateRules) (expense_breakdown : List (String × Rat))
    (category : String) : Rat :=
  let keywords := (List.lookup category rules.cost_categories).getD []
  expense_breakdown.foldl
    (fun total e =>
      if keywords.any (fun k => strContains (lowerStr e.1) (lowerStr k)) then total + e.2
      else total)
    0

/-- The per-job payload of parsed P&L data
(`pnl_data['data'][job_code]`, as read by `update_cvr_with_pnl`). -/
structure PnlJobData where
  total_expenses : Rat
  expense_breakdown : List (String × Rat)
deriving DecidableEq

/-- The per-job payload of parsed invoice data
(`invoice_data['data'][job_code]`, as read by `update_cvr_with_invoice`). -/
structure InvJobData where
  total_invoiced : Rat
  total_paid : Rat
  outstanding_balance : Rat
  payment_rate : Rat
deriving DecidableEq

/-- `CVRUpdater.update_cvr_with_pnl` (update_cvr.py 90-166), restricted to the
job sheet it mutates: workbook load/save and sheet cloning are outside the
cell logic.  The `updates` list of human-readable lines is modelled as
(label, amount) pairs — each source line is an f-string holding exactly that
label and that amount.  The error branch models the job-code-missing return
(`{'success': False, ...}`). -/
def update_cvr_with_pnl (rules : UpdateRules) (pnl_data : List (String × PnlJobData))
    (job_code : String) (sheet : Sheet) (now : String) :
    Except String (Sheet × List (String × Rat)) :=
  match List.lookup job_code pnl_data with
  | none => .error ("Job " ++ job_code ++ " not found in P&L data")
  | some jd =>
    let p1 := updateCell rules sheet "total_costs" jd.total_expenses
    let u1 := if p1.2 then [("Total costs", jd.total_expenses)] else []
    let material_cost := calculateCategoryCost rules jd.expense_breakdown "material"
    let p2 := updateCell rules p1.1 "material_costs" material_cost
    let u2 := if p2.2 then [("Material costs", material_cost)] else []
    let labour_cost := calculateCategoryCost rules jd.expense_breakdown "labour"
    let p3 := updateCell rules p2.1 "labour_costs" labour_cost
    let u3 := if p3.2 then [("Labour costs", labour_cost)] else []
    let plant_cost := calculateCategoryCost rules jd.expense_breakdown "plant"
    let p4 := updateCell rules p3.1 "plant_costs" plant_cost
    let u4 := if p4.2 then [("Plant costs", plant_cost)] else []
    let subcontract_cost := calculateCategoryCost rules jd.expense_breakdown "subcontract"
    let p5 := updateCell rules p4.1 "subcontract_costs" subcontract_cost
    let u5 := if p5.2 then [("Subcontract costs", subcontract_cost)] else []
    let s6 := setCell p5.1 "A1" (.str ("Last updated: " ++ now))
    .ok (s6, u1 ++ u2 ++ u3 ++ u4 ++ u5)

/-- The projected-margin block of `update_cvr_with_invoice`
(update_cvr.py 204-215), acting on the sheet after the `total_invoiced`
update.  `value or 0` maps `None` and `""` to `0`; a non-`""` string contract
value fails the `isinstance` number check (margin step skipped), while a
non-`""` string in the total-costs cell raises `TypeError` in the
subtraction. -/
def invoiceMarginStep (rules : UpdateRules) (s1 : Sheet) :
    Except String (Sheet × List (String × Rat)) :=
  let cvAddr := (List.lookup "total_contract_value" rules.cell_mappings).getD "C3"
  match s1 cvAddr with
  | .num cv =>
    if cv > 0 then
      let tcAddr := (List.lookup "total_costs" rules.cell_mappings).getD "C5"
      let tcv : Except String Rat :=
        match s1 tcAddr with
        | .empty => .ok 0
        | .num tc => .ok tc
        | .str t =>
          if t = "" then .ok 0
          else .error "TypeError: unsupported operand type(s) for -: 'float' and 'str'"
      match tcv with
      | .error e => .error e
      | .ok tc =>
        let p2 := updateCell rules s1 "projected_margin" (cv - tc)
        .ok (p2.1, if p2.2 then [("Projected margin", cv - tc)] else [])
    else .ok (s1, [])
  | _ => .ok (s1, [])

/-- The unconditional writes of `update_cvr_with_invoice`
(update_cvr.py 217-227): the payment-tracking block `E1..F4` and the
`A1` timestamp, performed by direct cell assignment with no
formula-preservation or positivity check. -/
def writePaymentBlock (s : Sheet) (jd : InvJobData) (now : String) : Sheet :=
  setCell
    (setCell
      (setCell
        (setCell
          (setCell
            (setCell
              (setCell
                (setCell s "E1" (.str "Payment Tracking"))
                "E2" (.str "Total Paid"))
              "F2" (.num jd.total_paid))
            "E3" (.str "Outstanding Balance"))
          "F3" (.num jd.outstanding_balance))
        "E4" (.str "Payment Rate"))
      "F4" (.str (ratFixed 1 jd.payment_rate ++ "%")))
    "A1" (.str ("Last updated: " ++ now))

/-- `CVRUpdater.update_cvr_with_invoice` (update_cvr.py 168-243), restricted to
the job sheet it mutates; workbook load/save and sheet cloning are outside
the cell logic.  The outer `except` that turns a raised `TypeError` into a
failure dictionary is the `Except.error` case. -/
def update_cvr_with_invoice (rules : UpdateRules) (invoice_data : List (String × InvJobData))
    (job_code : String) (sheet : Sheet) (now : String) :
    Except String (Sheet × List (String × Rat)) :=
  match List.lookup job_code invoice_data with
  | none => .error ("Job " ++ job_code ++ " not found in Invoice data")
  | some jd =>
    let p1 := updateCell rules sheet "total_invoiced" jd.total_invoiced
    let u1 := if p1.2 then [("Total invoiced", jd.total_invoiced)] else []
    match invoiceMarginStep rules p1.1 with
    | .error e => .error e
    | .ok p2 => .ok (writePaymentBlock p2.1 jd now, u1 ++ p2.2)

/-- Project the sheet out of a successful update result. -/
def okSheet (e : Except String (Sheet × List (String × Rat))) : Option Sheet :=
  match e with
  | .ok p => some p.1
  | .error _ => none

/-- Project the `updates` list out of a successful update result. -/
def okUpdates (e : Except String (Sheet × List (String × Rat))) : Option (List (String × Rat)) :=
  match e with
  | .ok p => some p.2
  | .error _ => none

/-- The sheet of the C1 counterexample: the `A1` header cell holds a formula. -/
def sheetC1cex : Sheet := fun a => if a = "A1" then .str "=SUM(A1:A5)" else .empty


/-- The sheet of the C1 witness: the mapped total-costs cell `C5` holds a
formula. -/
def sheetC1wit : Sheet := fun a => if a = "C5" then .str "=SUM(B1:B4)" else .empty


/-- The job payload of the C2 witness: a negative `total_expenses`. -/
def pnlJdC2 : PnlJobData := ⟨-10, []⟩


/-- The job payload of the C10 witness: negative paid amount, nonempty sheet
of formulas, and an update call that applies no mapped-field update at all. -/
def invJdC10 : InvJobData := ⟨-5, -7, 3, 50⟩

/-- The sheet of the C10 witness: every cell holds a formula. -/
def sheetC10 : Sheet := fun _ => .str "=X"


/-! ## Persistent data model (backend/models.py) and alert logic (backend/crud.py) -/

/-- `models.ExpenseCategory` (models.py 25-30): the five enum members the
persistent model defines.  (Their `.value` strings are identical to the
member names.) -/
inductive ExpenseCategory where
  | material
  | labour
  | plant_machinery
  | overheads
  | subcontractor
deriving DecidableEq

/-- A `Budget` row (models.py 135-149).  The category is carried as the
enum's `.value` string, the form in which `check_budget_overruns` compares
and reports it. -/
structure BudgetRow where
  job_id : Nat
  category : String
  budgeted_amount : Rat
deriving DecidableEq

/-- An `Expense` row (models.py), restricted to the fields the alert logic
reads. -/
structure ExpenseRow where
  job_id : Nat
  category : String
  amount : Rat
deriving DecidableEq

/-- An `Alert` row (models.py 151-...): `is_acknowledged` defaults to
`False` on creation. -/
structure AlertRow where
  job_id : Nat
  alert_type : String
  message : String
  severity : String
  is_acknowledged : Bool
deriving DecidableEq

/-- An `Invoice` row, restricted to the fields `check_and_create_invoice_alerts`
reads.  `due_date` and the current time are modelled at day granularity
(`(utcnow - due_date).days` is then exact integer subtraction). -/
structure InvoiceRow where
  job_id : Nat
  invoice_number : String
  amount : Rat
  due_date : Int
  is_paid : Bool
deriving DecidableEq

/-- The per-category actual spend of `check_budget_overruns` (crud.py 364-366):
`sum(Expense.amount) where job_id and category`, with `or 0.0` for the empty
case (an empty sum is already 0). -/
def actualSpend (expenses : List ExpenseRow) (job_id : Nat) (category : String) : Rat :=
  ((expenses.filter (fun e => e.job_id == job_id && e.category == category)).map
    (fun e => e.amount)).sum

/-- One element of the overrun list built by `check_budget_overruns`
(crud.py 368-374). -/
structure OverrunInfo where
  category : String
  budgeted : Rat
  actual : Rat
  overrun : Rat
  percentage_over : Rat
deriving DecidableEq

/-- `check_budget_overruns` (crud.py 357-376): for each budget row of the
job, compare actual spend with the budgeted amount; `percentage_over`
divides by `budgeted_amount`, so a zero budgeted amount exceeded by spending
raises `ZeroDivisionError` (modelled as the error case). -/
def check_budget_overruns (budgets : List BudgetRow) (expenses : List ExpenseRow)
    (job_id : Nat) : Except String (List OverrunInfo) :=
  (budgets.filter (fun b => b.job_id == job_id)).foldlM
    (fun acc b =>
      let actual_spend := actualSpend expenses job_id b.category
      if actual_spend > b.budgeted_amount then
        if b.budgeted_amount = 0 then .error "ZeroDivisionError: float division by zero"
        else
          .ok (acc ++
            [{ category := b.category,
               budgeted := b.budgeted_amount,
               actual := actual_spend,
               overrun := actual_spend - b.budgeted_amount,
               percentage_over :=
                 (actual_spend - b.budgeted_amount) / b.budgeted_amount * 100 }])
      else .ok acc)
    []

/-- The alert message built by `check_and_create_budget_alerts`
(crud.py 562). -/
def mkBudgetAlertMessage (o : OverrunInfo) : String :=
  "Budget overrun in " ++ o.category ++ ": £" ++ ratFixed 2 o.overrun ++
    " over budget (" ++ ratFixed 1 o.percentage_over ++ "%)"

/-- The alert `create_alert` persists for an overrun (crud.py 562-566). -/
def mkBudgetAlert (job_id : Nat) (o : OverrunInfo) : AlertRow :=
  { job_id := job_id, alert_type := "budget_overrun", message := mkBudgetAlertMessage o,
    severity := if o.percentage_over > 20 then "high" else "medium",
    is_acknowledged := false }

/-- The existing-alert query of the dedup check (crud.py 551-558 and 580-587):
same job, same alert type, message contains the subject, unacknowledged. -/
def matchesLiveAlert (job_id : Nat) (subject : String) (t : String) (a : AlertRow) : Bool :=
  a.job_id == job_id && a.alert_type == t && strContains a.message subject &&
    !a.is_acknowledged

/-- The loop of `check_and_create_budget_alerts` (crud.py 551-569) over the
overrun list: `db` is the alerts table (`create_alert` appends a committed
row), `created` the returned list of created alerts. -/
def processOverruns (job_id : Nat) :
    List OverrunInfo → List AlertRow → List AlertRow → List AlertRow × List AlertRow
  | [], db, created => (db, created)
  | o :: os, db, created =>
    match db.find? (matchesLiveAlert job_id o.category "budget_overrun") with
    | some _ => processOverruns job_id os db created
    | none =>
      let a := mkBudgetAlert job_id o
      processOverruns job_id os (db ++ [a]) (created ++ [a])

/-- `check_and_create_budget_alerts` (crud.py 544-571): compute the overruns,
then create one alert per overrun not already covered by a live alert.
Returns the new alerts table and the created alerts. -/
def check_and_create_budget_alerts (budgets : List BudgetRow) (expenses : List ExpenseRow)
    (alerts : List AlertRow) (job_id : Nat) :
    Except String (List AlertRow × List AlertRow) :=
  match check_budget_overruns budgets expenses job_id with
  | .error e => .error e
  | .ok overruns => .ok (processOverruns job_id overruns alerts [])

/-- `get_overdue_invoices` (crud.py 241-254): unpaid invoices past their due
date, optionally restricted to one job (`if job_id:`). -/
def get_overdue_invoices (invoices : List InvoiceRow) (now : Int) (job_id : Option Nat) :
    List InvoiceRow :=
  let base := invoices.filter (fun i => !i.is_paid && i.due_date < now)
  match job_id with
  | some j => base.filter (fun i => i.job_id == j)
  | none => base

/-- The alert `create_alert` persists for an overdue invoice
(crud.py 589-594). -/
def mkInvoiceAlert (now : Int) (i : InvoiceRow) : AlertRow :=
  { job_id := i.job_id, alert_type := "overdue_invoice",
    message := "Invoice " ++ i.invoice_number ++ " is " ++ toString (now - i.due_date) ++
      " days overdue (£" ++ ratFixed 2 i.amount ++ ")",
    severity := if now - i.due_date > 30 then "high" else "medium",
    is_acknowledged := false }

/-- The loop of `check_and_create_invoice_alerts` (crud.py 577-598) over the
overdue invoices. -/
def processOverdue (now : Int) :
    List InvoiceRow → List AlertRow → List AlertRow → List AlertRow × List AlertRow
  | [], db, created => (db, created)
  | i :: rest, db, created =>
    match db.find? (matchesLiveAlert i.job_id i.invoice_number "overdue_invoice") with
    | some _ => processOverdue now rest db created
    | none =>
      let a := mkInvoiceAlert now i
      processOverdue now rest (db ++ [a]) (created ++ [a])

/-- `check_and_create_invoice_alerts` (crud.py 573-598). -/
def check_and_create_invoice_alerts (invoices : List InvoiceRow) (alerts : List AlertRow)
    (job_id : Option Nat) (now : Int) : List AlertRow × List AlertRow :=
  processOverdue now (get_overdue_invoices invoices now job_id) alerts []

/-! ## Budget evaluation (backend/utils/budget_check.py) -/

/-- The `alert_thresholds` of the default alert configuration
(budget_check.py 43-47); `_get_alert_level` falls back to the same values
through `.get`. -/
structure AlertThresholds where
  warning : Rat
  critical : Rat
  exceeded : Rat
deriving DecidableEq

def defaultAlertThresholds : AlertThresholds :=
  { warning := 8 / 10, critical := 95 / 100, exceeded := 1 }

/-- `BudgetAlertSystem._get_alert_level` (budget_check.py 225-236). -/
def get_alert_level (t : AlertThresholds) (pct : Rat) : String :=
  if pct ≥ t.exceeded then "exceeded"
  else if pct ≥ t.critical then "critical"
  else if pct ≥ t.warning then "warning"
  else "normal"

/-- The percentage-used computation of `check_job_budgets`
(budget_check.py line 121): `(actual / budget) if budget > 0 else 0`. -/
def percentage_used (actual_amount budget_amount : Rat) : Rat :=
  if budget_amount > 0 then actual_amount / budget_amount else 0

/-- `BudgetAlertSystem._calculate_expense_totals` (budget_check.py 211-223):
the by-category totals dictionary (over the expenses of one job), read back
with `.get(category, 0)`. -/
def expense_totals (expenses : List ExpenseRow) (category : String) : Rat :=
  ((expenses.filter (fun e => e.category == category)).map (fun e => e.amount)).sum

/-- One entry of the `budget_status` dictionary built by `check_job_budgets`
(budget_check.py 126-133); `percentage_used` is stored multiplied by 100. -/
structure BudgetStatusEntry where
  category : String
  budget_amount : Rat
  actual_amount : Rat
  percentage_used : Rat
  remaining_budget : Rat
  alert_level : String
  over_budget : Bool
deriving DecidableEq

/-- The `budget.amount` attribute read at budget_check.py line 117.
`models.Budget` (models.py 135-149) defines `budgeted_amount` and no
`amount`, so this attribute access raises `AttributeError` on every budget
row. -/
def budgetRowAmountAttr (_b : BudgetRow) : Except String Rat :=
  .error "AttributeError: 'Budget' object has no attribute 'amount'"

/-- `BudgetAlertSystem.check_job_budgets` (budget_check.py 78-167) for a
resolved job, restricted to the budget evaluation itself: the loop body
first reads `budget.amount`; the function's outer `except` turns the raised
error into a failure result (the error case here).  The percentage, tier and
status construction that follow the read are consequently unreachable
whenever the job has a budget row. -/
def check_job_budgets (t : AlertThresholds) (budgets : List BudgetRow)
    (expenses : List ExpenseRow) : Except String (List BudgetStatusEntry) :=
  if budgets.isEmpty then .error "No budgets found for job"
  else
    budgets.foldlM
      (fun acc budget => do
        let budget_amount ← budgetRowAmountAttr budget
        let actual_amount := expense_totals expenses budget.category
        let pct := percentage_used actual_amount budget_amount
        .ok (acc ++
          [{ category := budget.category,
             budget_amount := budget_amount,
             actual_amount := actual_amount,
             percentage_used := pct * 100,
             remaining_budget := budget_amount - actual_amount,
             alert_level := get_alert_level t pct,
             over_budget := decide (actual_amount > budget_amount) }]))
      []

/-- Concrete store of the C3 witness: one budget row for job 1. -/
def budgetsC3 : List BudgetRow :=
  [{ job_id := 1, category := "material", budgeted_amount := 100 }]

/-- Concrete store of the C3 witness: £150 of material spend on job 1. -/
def expensesC3 : List ExpenseRow :=
  [{ job_id := 1, category := "material", amount := 150 }]

/-- The overrun the C3 witness data produces. -/
def overC3 : OverrunInfo :=
  { category := "material", budgeted := 100, actual := 150, overrun := 50,
    percentage_over := 50 }

/-- The alert the first C3 witness call persists. -/
def alertC3 : AlertRow := mkBudgetAlert 1 overC3

/-- Concrete store of the C5 witness: one budget row for job 2. -/
def budgetsC5 : List BudgetRow :=
  [{ job_id := 2, category := "labour", budgeted_amount := 100 }]

/-- Concrete store of the C5 witness: £150 of labour spend on job 2. -/
def expensesC5 : List ExpenseRow :=
  [{ job_id := 2, category := "labour", amount := 150 }]

/-- The overrun the C5 witness data produces (50% over budget). -/
def overC5 : OverrunInfo :=
  { category := "labour", budgeted := 100, actual := 150, overrun := 50,
    percentage_over := 50 }

/-- Concrete store of the C5 witness: one unpaid invoice of job 3, due on day
100 and checked on day 110 (10 days overdue). -/
def invC5 : InvoiceRow :=
  { job_id := 3, invoice_number := "INV-7", amount := 200, due_date := 100, is_paid := false }

/-! ## P&L parsing (backend/utils/parse_pnl.py) -/

/-- A value held in a pandas cell, as far as the parsers inspect one:
`NaN`/`None`, a number, a string, or a date (dates at day granularity). -/
inductive PyVal where
  | nan : PyVal
  | num : Rat → PyVal
  | str : String → PyVal
  | date : Int → PyVal
deriving DecidableEq

/-- `pd.isna`. -/
def pyIsNa (v : PyVal) : Bool :=
  match v with
  | .nan => true
  | _ => false

/-- Python truth-value test (`not v` is the negation): `None`/NaN, `0` and
`""` are falsy. -/
def pyTruthy (v : PyVal) : Bool :=
  match v with
  | .nan => false
  | .num x => decide (x ≠ 0)
  | .str s => decide (s ≠ "")
  | .date _ => true

/-- Python `str(v)` for the cell values that occur here (numeric and date
cells render through an auxiliary textual form; no property below inspects
the rendering of a non-string cell). -/
def pyToString (v : PyVal) : String :=
  match v with
  | .nan => "nan"
  | .num x => ratFixed 1 x
  | .str s => s
  | .date d => toString d

/-- Python `v == 0` on a cell value (a non-numeric value simply compares
unequal). -/
def pyEqZero (v : PyVal) : Bool :=
  match v with
  | .num x => decide (x = 0)
  | _ => false

/-- Python `float(v)`: numbers pass through, anything else raises (the
numeric-string case does not occur in the amount cells of these reports and
is not modelled). -/
def pyFloat (v : PyVal) : Except String Rat :=
  match v with
  | .num x => .ok x
  | .str s => .error ("ValueError: could not convert string to float: " ++ s)
  | .nan => .error "ValueError: cannot convert float NaN"
  | .date _ => .error "TypeError: float() argument"

/-- Python `abs` on a float. -/
def pyAbs (x : Rat) : Rat := if x < 0 then -x else x

/-- Python `v <= 0` on a cell value: numbers compare, `NaN <= 0` is `False`,
a string raises `TypeError`. -/
def pyLeZero (v : PyVal) : Except String Bool :=
  match v with
  | .num x => .ok (decide (x ≤ 0))
  | .nan => .ok false
  | .str s => .error ("TypeError: '<=' not supported between instances of 'str' and 'int': " ++ s)
  | .date _ => .error "TypeError: '<=' not supported between instances"

/-- `row.get(col, dflt)` on a pandas row (a missing column yields the
default). -/
def rowGet (row : List (String × PyVal)) (col : String) (dflt : PyVal) : PyVal :=
  (List.lookup col row).getD dflt

/-- The keyword sets of `PnLParser.categorize_expense` (parse_pnl.py 88,
93, 98, 103, 108). -/
def material_keywords : List String :=
  ["material", "cable", "pipe", "joint", "concrete", "aggregate", "sand", "cement"]

def labor_keywords : List String :=
  ["wage", "salary", "labor", "labour", "staff", "payroll", "overtime"]

def plant_keywords : List String :=
  ["plant", "machinery", "equipment", "hire", "rental", "excavator", "truck"]

def subcontractor_keywords : List String :=
  ["subcontractor", "sub-contractor", "contractor", "outsource"]

def transport_keywords : List String :=
  ["transport", "delivery", "fuel", "vehicle", "mileage"]

/-- Attribute access `ExpenseCategory.<name>` with Python's dynamic
semantics: `models.ExpenseCategory` (models.py 25-30) has exactly the five
members `material`, `labour`, `plant_machinery`, `overheads`,
`subcontractor`; any other name raises `AttributeError`. -/
def expenseCategoryAttr (name : String) : Except String ExpenseCategory :=
  match name with
  | "material" => .ok .material
  | "labour" => .ok .labour
  | "plant_machinery" => .ok .plant_machinery
  | "overheads" => .ok .overheads
  | "subcontractor" => .ok .subcontractor
  | _ => .error ("AttributeError: " ++ name)

/-- `PnLParser.categorize_expense` (parse_pnl.py 80-113): lower-case and
strip the description, then test the keyword sets in priority order; each
branch returns the named `ExpenseCategory` attribute — written in the source
as `materials`, `labor`, `plant_machinery`, `subcontractors`, `transport`
and `other`. -/
def categorize_expense (description : String) : Except String ExpenseCategory :=
  let d := stripStr (lowerStr description)
  if material_keywords.any (fun k => strContains d k) then expenseCategoryAttr "materials"
  else if labor_keywords.any (fun k => strContains d k) then expenseCategoryAttr "labor"
  else if plant_keywords.any (fun k => strContains d k) then
    expenseCategoryAttr "plant_machinery"
  else if subcontractor_keywords.any (fun k => strContains d k) then
    expenseCategoryAttr "subcontractors"
  else if transport_keywords.any (fun k => strContains d k) then
    expenseCategoryAttr "transport"
  else expenseCategoryAttr "other"

/-- Case-insensitive character comparison (`re.IGNORECASE`). -/
def chEqI (c d : Char) : Bool := c.toLower == d.toLower

/-- Match of the regex `JOB\d+` anchored at the head of the character list
(case-insensitive, greedy digits); returns the matched characters. -/
def matchJobNumAt (l : List Char) : Option (List Char) :=
  match l with
  | j :: o :: b :: rest =>
    if chEqI j 'J' && chEqI o 'O' && chEqI b 'B' then
      let digits := rest.takeWhile Char.isDigit
      if digits.isEmpty then none else some (j :: o :: b :: digits)
    else none
  | _ => none

/-- Match of the regex `SGN-\d{4}-\d+` anchored at the head
(case-insensitive). -/
def matchSgnAt (l : List Char) : Option (List Char) :=
  match l with
  | s :: g :: n :: '-' :: r2 =>
    if chEqI s 'S' && chEqI g 'G' && chEqI n 'N' then
      let d1 := r2.takeWhile Char.isDigit
      if d1.length == 4 then
        match r2.drop 4 with
        | '-' :: r3 =>
          let d2 := r3.takeWhile Char.isDigit
          if d2.isEmpty then none
          else some (s :: g :: n :: '-' :: (d1 ++ '-' :: d2))
        | _ => none
      else none
    else none
  | _ => none

/-- Match of the regex `[A-Z]{2,}-\d{4}-\d+` anchored at the head (with
`re.IGNORECASE`, the letter class covers both cases; the greedy letter run
must be followed by `-`, exactly four digits, `-`, and at least one
digit). -/
def matchAlphaCodeAt (l : List Char) : Option (List Char) :=
  let letters := l.takeWhile Char.isAlpha
  if letters.length ≥ 2 then
    match l.drop letters.length with
    | '-' :: r2 =>
      let d1 := r2.takeWhile Char.isDigit
      if d1.length == 4 then
        match r2.drop 4 with
        | '-' :: r3 =>
          let d2 := r3.takeWhile Char.isDigit
          if d2.isEmpty then none
          else some (letters ++ '-' :: (d1 ++ '-' :: d2))
        | _ => none
      else none
    | _ => none
  else none

/-- `re.search`: try the anchored matcher at each start position, leftmost
match wins. -/
def reSearch (m : List Char → Option (List Char)) : List Char → Option (List Char)
  | [] => m []
  | c :: t =>
    match m (c :: t) with
    | some r => some r
    | none => reSearch m t

/-- `PnLParser.extract_job_code_from_class` (parse_pnl.py 115-152): `None`
for empty / `Not Specified` labels; otherwise strip, try the three patterns
in order, and fall back to the upper-cased cleaned label. -/
def extract_job_code_from_class (class_name : String) : Option String :=
  if class_name = "" ∨ class_name = "Not Specified" then none
  else
    let s := stripStr class_name
    match reSearch matchJobNumAt s.data with
    | some m => some (upperStr (String.mk m))
    | none =>
      match reSearch matchSgnAt s.data with
      | some m => some (upperStr (String.mk m))
      | none =>
        match reSearch matchAlphaCodeAt s.data with
        | some m => some (upperStr (String.mk m))
        | none => some (upperStr s)

/-- A cleaned P&L DataFrame (`parse_excel_file` output): column labels plus
rows as (column, value) cells. -/
structure PnlFrame where
  columns : List String
  rows : List (List (String × PyVal))
deriving DecidableEq

/-- One expense record assembled by `process_pnl_data` (parse_pnl.py
208-215); the `expense_date` (processing time) and constant
`source = "P&L Import"` fields are omitted as no property depends on
them. -/
structure PnlExpenseRecord where
  job_id : Nat
  category : ExpenseCategory
  description : String
  amount : Rat
deriving DecidableEq

/-- The counters and accumulated expenses of one `process_pnl_data` run. -/
structure PnlProcessResult where
  processed_count : Nat
  skipped_count : Nat
  expenses : List PnlExpenseRecord
deriving DecidableEq

/-- The job-column scan of `process_pnl_data` (parse_pnl.py 165-170): every
column other than blank, `Account` and `Total` whose header yields a job
code. -/
def pnlJobColumns (columns : List String) : List (String × String) :=
  columns.filterMap (fun col =>
    if col ≠ "" ∧ stripStr col ≠ "" ∧ stripStr col ≠ "Account" ∧ stripStr col ≠ "Total" then
      (extract_job_code_from_class col).map (fun jc => (col, jc))
    else none)

/-- The per-cell body of `process_pnl_data` (parse_pnl.py 189-219): `.ok
none` is a plain `continue` (NaN or zero amount, or unresolvable job — none
of which touch the skip counter), `.error` is a raised exception the inner
`except` converts into a skip.  `resolve` stands for the job-mapping lookup
plus `create_job_if_not_exists` (the store collaborator). -/
def processPnlCell (resolve : String → Option Nat) (account_name : String)
    (row : List (String × PyVal)) (col jc : String) :
    Except String (Option PnlExpenseRecord) :=
  let amount := rowGet row col (.num 0)
  if pyIsNa amount then .ok none
  else if pyEqZero amount then .ok none
  else do
    let x ← pyFloat amount
    let amt := pyAbs x
    match resolve jc with
    | none => .ok none
    | some job_id => do
      let category ← categorize_expense account_name
      .ok (some { job_id := job_id, category := category, description := account_name,
                  amount := amt })

/-- The per-row body of `process_pnl_data` (parse_pnl.py 175-228): skip
blank accounts and total/summary rows, then process every job column. -/
def processPnlRow (resolve : String → Option Nat) (jobColumns : List (String × String))
    (state : PnlProcessResult) (row : List (String × PyVal)) : PnlProcessResult :=
  let account_val := rowGet row "Account" (.str "")
  if !(pyTruthy account_val) || pyIsNa account_val then state
  else
    let account_name := stripStr (pyToString account_val)
    if ["total", "income", "revenue", "gross profit"].any
        (fun w => strContains (lowerStr account_name) w) then state
    else
      jobColumns.foldl
        (fun st cj =>
          match processPnlCell resolve account_name row cj.1 cj.2 with
          | .ok none => st
          | .ok (some r) =>
            { st with processed_count := st.processed_count + 1,
                      expenses := st.expenses ++ [r] }
          | .error _ => { st with skipped_count := st.skipped_count + 1 })
        state

/-- `PnLParser.process_pnl_data` (parse_pnl.py 154-238). -/
def process_pnl_data (resolve : String → Option Nat) (df : PnlFrame) : PnlProcessResult :=
  df.rows.foldl (processPnlRow resolve (pnlJobColumns df.columns))
    { processed_count := 0, skipped_count := 0, expenses := [] }

/-- The P&L sheet of C7's scenario: one job column `JOB001-Main Road`, one
account row `Materials` valued `-150`. -/
def dfC7 : PnlFrame :=
  { columns := ["Account", "JOB001-Main Road"],
    rows := [[("Account", .str "Materials"), ("JOB001-Main Road", .num (-150))]] }

/-- A P&L sheet with a summary row and a zero-valued cell, both of which the
normaliser must skip. -/
def dfC7b : PnlFrame :=
  { columns := ["Account", "JOB001-Main Road"],
    rows := [[("Account", .str "Total Income"), ("JOB001-Main Road", .num 100)],
             [("Account", .str "Materials"), ("JOB001-Main Road", .num 0)]] }

/-! ## Invoice parsing (backend/utils/parse_invoice.py) -/

/-- Lexicographic (code-point) order on character lists, as Python compares
strings. -/
def lexLeChars : List Char → List Char → Bool
  | [], _ => true
  | _ :: _, [] => false
  | c :: cs, d :: ds => if c = d then lexLeChars cs ds else decide (c < d)

def strLe (a b : String) : Bool := lexLeChars a.data b.data

def insertAscStr (x : String) : List String → List String
  | [] => [x]
  | y :: ys => if strLe x y then x :: y :: ys else y :: insertAscStr x ys

/-- Python `sorted` on strings (ascending; also the ascending key order of
`pandas.groupby`). -/
def sortStrs (l : List String) : List String := l.foldr insertAscStr []

/-- First-occurrence de-duplication. -/
def dedupStrs (l : List String) : List String :=
  l.foldl (fun acc s => if acc.contains s then acc else acc ++ [s]) []

/-- A raw invoice DataFrame: column labels plus rows of (column, value)
cells. -/
structure InvFrame where
  columns : List String
  rows : List (List (String × PyVal))
deriving DecidableEq

/-- Rewrite the values of one column. -/
def mapColVals (name : String) (f : PyVal → PyVal)
    (rows : List (List (String × PyVal))) : List (List (String × PyVal)) :=
  rows.map (fun r => r.map (fun p => if p.1 = name then (p.1, f p.2) else p))

/-- `pd.to_datetime(errors='coerce')`: date values pass, everything else
coerces to NaN (parsing of textual dates is not exercised by the properties
below; date cells carry date values). -/
def coerceDate (v : PyVal) : PyVal :=
  match v with
  | .date d => .date d
  | _ => .nan

/-- `pd.to_numeric(errors='coerce')` (numeric text is likewise not
exercised). -/
def coerceNum (v : PyVal) : PyVal :=
  match v with
  | .num x => .num x
  | _ => .nan

/-- One column entry of a `fillna` dictionary. -/
def fillNa (dflt : PyVal) (v : PyVal) : PyVal :=
  match v with
  | .nan => dflt
  | w => w

/-- The `Class` cleanup `astype(str).str.strip().str.upper()`
(parse_invoice.py 106-107). -/
def classClean (v : PyVal) : PyVal := .str (upperStr (stripStr (pyToString v)))

/-- A row all of whose cells are NaN (`dropna(how='all')`). -/
def rowAllNa (columns : List String) (row : List (String × PyVal)) : Bool :=
  columns.all (fun c => pyIsNa (rowGet row c .nan))

/-- `InvoiceParser._clean_dataframe` (parse_invoice.py 75-109): drop empty
rows, strip column labels, coerce the date and amount columns that are
present, fill the sentinel defaults, and normalise the `Class` column. -/
def cleanInvFrame (df : InvFrame) : InvFrame :=
  let rows0 := df.rows.filter (fun r => !(rowAllNa df.columns r))
  let cols := df.columns.map stripStr
  let rows1 := rows0.map (fun r => r.map (fun p => (stripStr p.1, p.2)))
  let rows2 := (["Date", "Due Date"] : List String).foldl
    (fun rs c => if cols.contains c then mapColVals c coerceDate rs else rs) rows1
  let rows3 := (["Amount", "Balance", "A/R Paid"] : List String).foldl
    (fun rs c => if cols.contains c then mapColVals c coerceNum rs else rs) rows2
  let rows4 := ([("Class", PyVal.str "UNASSIGNED"), ("Name", PyVal.str "UNKNOWN"),
      ("Amount", PyVal.num 0), ("Balance", PyVal.num 0), ("A/R Paid", PyVal.num 0)] :
        List (String × PyVal)).foldl
    (fun rs cd => if cols.contains cd.1 then mapColVals cd.1 (fillNa cd.2) rs else rs) rows3
  let rows5 := if cols.contains "Class" then mapColVals "Class" classClean rows4 else rows4
  { columns := cols, rows := rows5 }

/-- The grouping key of one row (`df.groupby('Class')`). -/
def classKeyOf (row : List (String × PyVal)) : String :=
  pyToString (rowGet row "Class" .nan)

/-- `job_df[name].sum()`: raises `KeyError` when the column is absent,
otherwise sums the column (NaN cells contribute nothing). -/
def sumCol (columns : List String) (rows : List (List (String × PyVal)))
    (name : String) : Except String Rat :=
  if columns.contains name then
    .ok ((rows.map (fun r =>
      match rowGet r name .nan with
      | .num x => x
      | _ => 0)).sum)
  else .error ("KeyError: '" ++ name ++ "'")

/-- One entry of the per-job `invoices` list (parse_invoice.py 133-143);
dates are day numbers (the `%Y-%m-%d` rendering is not modelled). -/
structure InvoiceInfo where
  invoice_number : String
  date : Option Int
  client_name : String
  amount : Rat
  balance : Rat
  paid_amount : Rat
  status : String
  due_date : Option Int
  aging_days : Int
deriving DecidableEq

/-- The per-job dictionary of `_process_invoice_data`
(parse_invoice.py 147-156). -/
structure JobInvoiceData where
  job_code : String
  total_invoiced : Rat
  total_paid : Rat
  outstanding_balance : Rat
  paid_invoices_count : Nat
  unpaid_invoices_count : Nat
  invoices : List InvoiceInfo
  payment_rate : Rat
deriving DecidableEq

/-- Assemble one `invoice_info` entry (parse_invoice.py 132-144): the paid
status compares the raw `Balance` cell with 0, aging is
`(today - due_date).days`. -/
def mkInvoiceInfo (now : Int) (row : List (String × PyVal)) : Except String InvoiceInfo := do
  let amount ← pyFloat (rowGet row "Amount" (.num 0))
  let balance ← pyFloat (rowGet row "Balance" (.num 0))
  let paid ← pyFloat (rowGet row "A/R Paid" (.num 0))
  let balLe ← pyLeZero (rowGet row "Balance" (.num 0))
  .ok { invoice_number := pyToString (rowGet row "Num" (.str "")),
        date := (match rowGet row "Date" .nan with | .date d => some d | _ => none),
        client_name := pyToString (rowGet row "Name" (.str "")),
        amount := amount, balance := balance, paid_amount := paid,
        status := if balLe then "PAID" else "UNPAID",
        due_date := (match rowGet row "Due Date" .nan with | .date d => some d | _ => none),
        aging_days := (match rowGet row "Due Date" .nan with | .date d => now - d | _ => 0) }

/-- Rows with `Balance <= 0` (paid) — empty when the column is absent
(parse_invoice.py 127). -/
def paidRowCount (columns : List String) (rows : List (List (String × PyVal))) : Nat :=
  if columns.contains "Balance" then
    (rows.filter (fun r =>
      match rowGet r "Balance" .nan with
      | .num x => decide (x ≤ 0)
      | _ => false)).length
  else 0

/-- Rows with `Balance > 0` (unpaid). -/
def unpaidRowCount (columns : List String) (rows : List (List (String × PyVal))) : Nat :=
  if columns.contains "Balance" then
    (rows.filter (fun r =>
      match rowGet r "Balance" .nan with
      | .num x => decide (x > 0)
      | _ => false)).length
  else 0

/-- The per-job block of `_process_invoice_data` (parse_invoice.py 120-156). -/
def mkJobInvoiceData (now : Int) (columns : List String) (key : String)
    (group : List (List (String × PyVal))) : Except String JobInvoiceData := do
  let total_invoiced ← sumCol columns group "Amount"
  let total_paid :=
    if columns.contains "A/R Paid" then
      ((group.map (fun r =>
        match rowGet r "A/R Paid" .nan with
        | .num x => x
        | _ => 0)).sum)
    else 0
  let outstanding ← sumCol columns group "Balance"
  let invoices ← group.mapM (mkInvoiceInfo now)
  .ok { job_code := key, total_invoiced := total_invoiced, total_paid := total_paid,
        outstanding_balance := outstanding,
        paid_invoices_count := paidRowCount columns group,
        unpaid_invoices_count := unpaidRowCount columns group,
        invoices := invoices,
        payment_rate :=
          if total_invoiced > 0 then total_paid / total_invoiced * 100 else 0 }

/-- `InvoiceParser._process_invoice_data` (parse_invoice.py 111-158): group
the rows by the `Class` column (`KeyError` when it is absent), skipping the
`UNASSIGNED` group. -/
def process_invoice_data (now : Int) (df : InvFrame) :
    Except String (List (String × JobInvoiceData)) :=
  if df.columns.contains "Class" then
    (sortStrs (dedupStrs (df.rows.map classKeyOf))).foldlM
      (fun acc key =>
        if key = "UNASSIGNED" then .ok acc
        else do
          let jd ← mkJobInvoiceData now df.columns key
            (df.rows.filter (fun r => classKeyOf r = key))
          .ok (acc ++ [(key, jd)]))
      []
  else .error "KeyError: 'Class'"

/-- One advisory alert of `_generate_alerts` (parse_invoice.py 210-249);
`alert_type` carries the dictionary's `type` key. -/
structure InvoiceAlert where
  alert_type : String
  job_code : String
  message : String
  severity : String
  value : Rat
deriving DecidableEq

/-- One `job_performance` entry (parse_invoice.py 186-192). -/
structure JobPerformance where
  job_code : String
  total_invoiced : Rat
  payment_rate : Rat
  outstanding_balance : Rat
  status : String
deriving DecidableEq

/-- The summary object of `_generate_summary` (parse_invoice.py 198-208). -/
structure InvoiceSummary where
  total_invoiced : Rat
  total_paid : Rat
  total_outstanding : Rat
  overall_payment_rate : Rat
  paid_invoices_count : Nat
  unpaid_invoices_count : Nat
  total_jobs : Nat
  job_performance : List JobPerformance
  alerts : List InvoiceAlert
deriving DecidableEq

/-- `InvoiceParser._generate_alerts` (parse_invoice.py 210-249); the
thousands separator of the `:,.2f` rendering is not modelled. -/
def generate_invoice_alerts (data : List (String × JobInvoiceData)) : List InvoiceAlert :=
  data.foldl
    (fun acc kv =>
      let job_code := kv.1
      let jd := kv.2
      let a1 :=
        if jd.payment_rate < 50 then
          [{ alert_type := "LOW_PAYMENT_RATE", job_code := job_code,
             message := "Job " ++ job_code ++ " has low payment rate: " ++
               ratFixed 1 jd.payment_rate ++ "%",
             severity := "HIGH", value := jd.payment_rate }]
        else []
      let a2 :=
        if jd.outstanding_balance > 10000 then
          [{ alert_type := "HIGH_OUTSTANDING_BALANCE", job_code := job_code,
             message := "Job " ++ job_code ++ " has high outstanding balance: £" ++
               ratFixed 2 jd.outstanding_balance,
             severity := "MEDIUM", value := jd.outstanding_balance }]
        else []
      let overdue :=
        jd.invoices.filter (fun i => i.status == "UNPAID" && decide (i.aging_days > 30))
      let a3 :=
        if overdue.isEmpty then ([] : List InvoiceAlert)
        else
          [{ alert_type := "OVERDUE_INVOICES", job_code := job_code,
             message := "Job " ++ job_code ++ " has " ++ toString overdue.length ++
               " overdue invoices",
             severity := "HIGH", value := (overdue.length : Rat) }]
      acc ++ a1 ++ a2 ++ a3)
    []

def insertDescPerf (x : JobPerformance) : List JobPerformance → List JobPerformance
  | [] => [x]
  | y :: ys =>
    if x.outstanding_balance ≥ y.outstanding_balance then x :: y :: ys
    else y :: insertDescPerf x ys

/-- Stable descending sort by outstanding balance
(`job_performance.sort(..., reverse=True)`). -/
def sortPerfDesc (l : List JobPerformance) : List JobPerformance := l.foldr insertDescPerf []

/-- `InvoiceParser._generate_summary` (parse_invoice.py 173-208). -/
def generate_invoice_summary (data : List (String × JobInvoiceData)) : InvoiceSummary :=
  let total_invoiced := (data.map (fun kv => kv.2.total_invoiced)).sum
  let total_paid := (data.map (fun kv => kv.2.total_paid)).sum
  { total_invoiced := total_invoiced,
    total_paid := total_paid,
    total_outstanding := (data.map (fun kv => kv.2.outstanding_balance)).sum,
    overall_payment_rate :=
      if total_invoiced > 0 then total_paid / total_invoiced * 100 else 0,
    paid_invoices_count := (data.map (fun kv => kv.2.paid_invoices_count)).sum,
    unpaid_invoices_count := (data.map (fun kv => kv.2.unpaid_invoices_count)).sum,
    total_jobs := data.length,
    job_performance :=
      (sortPerfDesc (data.map (fun (kv : String × JobInvoiceData) =>
        ({ job_code := kv.1, total_invoiced := kv.2.total_invoiced,
           payment_rate := kv.2.payment_rate,
           outstanding_balance := kv.2.outstanding_balance,
           status := if kv.2.payment_rate > 80 then "HEALTHY" else "ATTENTION_NEEDED" } :
          JobPerformance)))).take 10,
    alerts := generate_invoice_alerts data }

/-- The result dictionary of `parse_invoice_file` (parse_invoice.py 54-73). -/
structure InvParseResult where
  success : Bool
  error : Option String
  data : List (String × JobInvoiceData)
  summary : Option InvoiceSummary
deriving DecidableEq

/-- `InvoiceParser.parse_invoice_file` (parse_invoice.py 25-73), given the
already-read first sheet.  Note: the `required_columns` list declared in
`InvoiceParser.__init__` (lines 17-23) is never consulted anywhere in the
class — no column validation takes place; a raised exception (such as the
`KeyError` for a missing `Class`/`Amount`/`Balance` column) is caught and
returned as a failure dictionary carrying only the exception text. -/
def parse_invoice_file (now : Int) (df : InvFrame) : InvParseResult :=
  match (do
      let cleaned := cleanInvFrame df
      let data ← process_invoice_data now cleaned
      Except.ok (data, generate_invoice_summary data) :
        Except String (List (String × JobInvoiceData) × InvoiceSummary)) with
  | .ok p => { success := true, error := none, data := p.1, summary := some p.2 }
  | .error e => { success := false, error := some e, data := [], summary := none }

/-- C8's failing input: a one-row invoice sheet whose columns are
`Date, Num, Name, Class, Amount, Balance` — the required column `Type` is
absent. -/
def dfC8 : InvFrame :=
  { columns := ["Date", "Num", "Name", "Class", "Amount", "Balance"],
    rows := [[("Date", .date 19700), ("Num", .str "INV1"), ("Name", .str "ACME"),
              ("Class", .str "JOB001"), ("Amount", .num 500), ("Balance", .num 0)]] }

/-! ## Batch reconciliation (`process_all_jobs_cvr`, update_cvr.py 579-617) -/

/-- A CVR template workbook: header row plus data rows. -/
structure CvrWorkbook where
  header : List String
  rows : List (List PyVal)
deriving DecidableEq

/-- The `col_index` dictionary comprehension of `process_all_jobs_cvr`
(update_cvr.py 598): header text to 1-based column index; a duplicated
header keeps the last occurrence (later dict writes win). -/
def colIndex1 (header : List String) (name : String) : Option Nat :=
  ((header.enum.filter (fun p => p.2 = name)).map (fun p => p.1 + 1)).getLast?

/-- `process_all_jobs_cvr` (update_cvr.py 579-617).  `files` is the
`glob` listing of the templates directory, `load` the workbook reader, and
`template_path` the optional explicit template (Python's falsy check treats
`""` like `None`).  With no explicit template the lexicographically last
file is chosen (`sorted(...)[-1]`).  Each data row first resolves the
`Job Code` column (a `KeyError` if the header lacks it) and then calls
`get_job_detail_metrics(db, job_code=job_code)` — but `crud.
get_job_detail_metrics` (crud.py 435) is declared `(db, job_id)`, so the
call raises `TypeError` on the first data row; the five column writes
(lines 608-612) and the save are unreachable whenever a data row exists.
With no data rows the loop body never runs and the workbook is saved as
`cvr_processed_<UTC timestamp>.xlsx`. -/
def process_all_jobs_cvr (files : List String) (template_path : Option String)
    (load : String → Option CvrWorkbook) (utcnow : String) :
    Except String (String × CvrWorkbook) := do
  let tp ←
    match template_path with
    | some p =>
      if p = "" then
        match (sortStrs files).getLast? with
        | some f => Except.ok f
        | none => Except.error "FileNotFoundError: No CVR template found"
      else Except.ok p
    | none =>
      match (sortStrs files).getLast? with
      | some f => Except.ok f
      | none => Except.error "FileNotFoundError: No CVR template found"
  let wb ←
    match load tp with
    | some w => Except.ok w
    | none => Except.error ("FileNotFoundError: " ++ tp)
  match wb.rows with
  | [] => Except.ok ("cvr_processed_" ++ utcnow ++ ".xlsx", wb)
  | _ :: _ =>
    match colIndex1 wb.header "Job Code" with
    | none => Except.error "KeyError: 'Job Code'"
    | some _ =>
      Except.error
        "TypeError: get_job_detail_metrics() got an unexpected keyword argument 'job_code'"

/-- The template header of the C9 scenario. -/
def headerC9 : List String :=
  ["Job Code", "Cost to Date", "Invoiced", "Est. Final Cost", "Amended Value", "Margin"]

/-- A template with one data row for job JOB001. -/
def wbC9 : CvrWorkbook :=
  { header := headerC9,
    rows := [[.str "JOB001", .num 0, .num 0, .num 0, .num 0, .num 0]] }

/-- The same template with no data rows. -/
def wbC9empty : CvrWorkbook := { header := headerC9, rows := [] }

/-- The templates directory listing of the C9 scenario. -/
def filesC9 : List String :=
  ["CVR_Templates/cvr_2024.xlsx", "CVR_Templates/cvr_2023.xlsx"]

/-! ## Frame lemmas for `_update_cell` -/

lemma setCell_ne (sheet : Sheet) (addr a : String) (v : CellValue) (h : a ≠ addr) :
    setCell sheet addr v a = sheet a := by
  simp [setCell, h]

/-- `_update_cell` never changes a cell that currently holds a formula, as
long as the `preserve_formulas` condition is on: either it writes a different
cell, or the formula guard rejects the write. -/
lemma updateCell_keeps_formula_cell (rules : UpdateRules) (s : Sheet) (k : String) (v : Rat)
    (addr : String) (hp : rules.update_conditions.preserve_formulas = true)
    (hf : isFormula (s addr) = true) :
    (updateCell rules s k v).1 addr = s addr := by
  unfold updateCell
  cases h : List.lookup k rules.cell_mappings with
  | none => rfl
  | some a =>
    by_cases h1 : rules.update_conditions.only_positive_values ∧ v < 0
    · simp [h1]
    · simp only [if_neg h1]
      by_cases h2 : rules.update_conditions.preserve_formulas ∧ isFormula (s a)
      · simp [h2]
      · simp only [if_neg h2]
        by_cases h3 : addr = a
        · exact absurd ⟨by simp [hp], by rw [← h3]; simp [hf]⟩ h2
        · exact setCell_ne s a addr (.num v) h3

/-- `_update_cell` leaves every cell other than the one mapped to its key
unchanged. -/
lemma updateCell_frame (rules : UpdateRules) (s : Sheet) (k : String) (v : Rat)
    (a addr : String) (hm : List.lookup k rules.cell_mappings = some addr) (h : a ≠ addr) :
    (updateCell rules s k v).1 a = s a := by
  unfold updateCell
  rw [hm]
  by_cases h1 : rules.update_conditions.only_positive_values ∧ v < 0
  · simp [h1]
  · simp only [if_neg h1]
    by_cases h2 : rules.update_conditions.preserve_formulas ∧ isFormula (s addr)
    · simp [h2]
    · simp only [if_neg h2]
      exact setCell_ne s addr a (.num v) h

/-- Rejected `_update_cell` calls: negative value under `only_positive_values`,
or an unmapped field key, both return the sheet unchanged with `False`. -/
lemma updateCell_skips (rules : UpdateRules) (s : Sheet) (k : String) (v : Rat) :
    (rules.update_conditions.only_positive_values = true → v < 0 →
      updateCell rules s k v = (s, false)) ∧
    (List.lookup k rules.cell_mappings = none → updateCell rules s k v = (s, false)) := by
  constructor
  · intro hpos hneg
    unfold updateCell
    cases h : List.lookup k rules.cell_mappings with
    | none => rfl
    | some a => simp [hpos, hneg]
  · intro h
    unfold updateCell
    rw [h]

lemma invoiceMarginStep_keeps_formula_cell (rules : UpdateRules) (s1 : Sheet) (addr : String)
    (hp : rules.update_conditions.preserve_formulas = true)
    (hf : isFormula (s1 addr) = true) (p2 : Sheet × List (String × Rat))
    (h : invoiceMarginStep rules s1 = .ok p2) :
    p2.1 addr = s1 addr := by
  simp only [invoiceMarginStep] at h
  cases hcv : s1 ((List.lookup "total_contract_value" rules.cell_mappings).getD "C3") with
  | num cv =>
    rw [hcv] at h
    dsimp only at h
    by_cases hpos : cv > 0
    · rw [if_pos hpos] at h
      cases htc : s1 ((List.lookup "total_costs" rules.cell_mappings).getD "C5") with
      | empty =>
        rw [htc] at h
        dsimp only at h
        simp only [Except.ok.injEq] at h
        rw [← h]
        exact updateCell_keeps_formula_cell rules s1 _ _ addr hp hf
      | num tc =>
        rw [htc] at h
        dsimp only at h
        simp only [Except.ok.injEq] at h
        rw [← h]
        exact updateCell_keeps_formula_cell rules s1 _ _ addr hp hf
      | str t =>
        rw [htc] at h
        dsimp only at h
        by_cases ht : t = ""
        · rw [if_pos ht] at h
          dsimp only at h
          simp only [Except.ok.injEq] at h
          rw [← h]
          exact updateCell_keeps_formula_cell rules s1 _ _ addr hp hf
        · rw [if_neg ht] at h
          exact absurd h (by simp)
    · rw [if_neg hpos] at h
      simp only [Except.ok.injEq] at h
      rw [← h]
  | empty =>
    rw [hcv] at h
    dsimp only at h
    simp only [Except.ok.injEq] at h
    rw [← h]
  | str t =>
    rw [hcv] at h
    dsimp only at h
    simp only [Except.ok.injEq] at h
    rw [← h]

lemma writePaymentBlock_frame (s : Sheet) (jd : InvJobData) (now : String) (addr : String)
    (h : addr ∉ (["A1", "E1", "E2", "F2", "E3", "F3", "E4", "F4"] : List String)) :
    writePaymentBlock s jd now addr = s addr := by
  simp only [List.mem_cons, List.not_mem_nil, or_false, not_or] at h
  obtain ⟨h1, h2, h3, h4, h5, h6, h7, h8⟩ := h
  unfold writePaymentBlock
  rw [setCell_ne _ _ _ _ h1, setCell_ne _ _ _ _ h8, setCell_ne _ _ _ _ h7,
    setCell_ne _ _ _ _ h6, setCell_ne _ _ _ _ h5, setCell_ne _ _ _ _ h4,
    setCell_ne _ _ _ _ h3, setCell_ne _ _ _ _ h2]

lemma setCell_same (s : Sheet) (addr : String) (v : CellValue) : setCell s addr v addr = v := by
  simp [setCell]

lemma writePaymentBlock_cells (s : Sheet) (jd : InvJobData) (now : String) :
    writePaymentBlock s jd now "E1" = .str "Payment Tracking" ∧
    writePaymentBlock s jd now "E2" = .str "Total Paid" ∧
    writePaymentBlock s jd now "F2" = .num jd.total_paid ∧
    writePaymentBlock s jd now "E3" = .str "Outstanding Balance" ∧
    writePaymentBlock s jd now "F3" = .num jd.outstanding_balance ∧
    writePaymentBlock s jd now "E4" = .str "Payment Rate" ∧
    writePaymentBlock s jd now "F4" = .str (ratFixed 1 jd.payment_rate ++ "%") ∧
    writePaymentBlock s jd now "A1" = .str ("Last updated: " ++ now) := by
  unfold writePaymentBlock
  refine ⟨?_, ?_, ?_, ?_, ?_, ?_, ?_, ?_⟩
  · rw [setCell_ne _ _ _ _ (by decide), setCell_ne _ _ _ _ (by decide),
      setCell_ne _ _ _ _ (by decide), setCell_ne _ _ _ _ (by decide),
      setCell_ne _ _ _ _ (by decide), setCell_ne _ _ _ _ (by decide),
      setCell_ne _ _ _ _ (by decide), setCell_same]
  · rw [setCell_ne _ _ _ _ (by decide), setCell_ne _ _ _ _ (by decide),
      setCell_ne _ _ _ _ (by decide), setCell_ne _ _ _ _ (by decide),
      setCell_ne _ _ _ _ (by decide), setCell_ne _ _ _ _ (by decide), setCell_same]
  · rw [setCell_ne _ _ _ _ (by decide), setCell_ne _ _ _ _ (by decide),
      setCell_ne _ _ _ _ (by decide), setCell_ne _ _ _ _ (by decide),
      setCell_ne _ _ _ _ (by decide), setCell_same]
  · rw [setCell_ne _ _ _ _ (by decide), setCell_ne _ _ _ _ (by decide),
      setCell_ne _ _ _ _ (by decide), setCell_ne _ _ _ _ (by decide), setCell_same]
  · rw [setCell_ne _ _ _ _ (by decide), setCell_ne _ _ _ _ (by decide),
      setCell_ne _ _ _ _ (by decide), setCell_same]
  · rw [setCell_ne _ _ _ _ (by decide), setCell_ne _ _ _ _ (by decide), setCell_same]
  · rw [setCell_ne _ _ _ _ (by decide), setCell_same]
  · rw [setCell_same]

/-! ## Claim C1 -/

/-- C1 (counterexample): it is not true that every cell currently holding a
formula string survives an update call unchanged — `update_cvr_with_pnl`
overwrites the `A1` cell with its "Last updated" stamp even when `A1` holds a
formula, with the default rules (`preserve_formulas` on). -/
theorem C1_counterexample :
    sheetC1cex "A1" = .str "=SUM(A1:A5)" ∧
    (okSheet (update_cvr_with_pnl defaultUpdateRules
        [("J1", (⟨0, []⟩ : PnlJobData))] "J1" sheetC1cex "2024-01-01 00:00:00")).map
      (fun s => s "A1") = some (.str "Last updated: 2024-01-01 00:00:00") ∧
    CellValue.str "Last updated: 2024-01-01 00:00:00" ≠ CellValue.str "=SUM(A1:A5)" := by
  refine ⟨rfl, ?_, by decide⟩
  have hlk : List.lookup "J1" [("J1", (⟨0, []⟩ : PnlJobData))] = some ⟨0, []⟩ := rfl
  simp only [update_cvr_with_pnl, hlk, okSheet, Option.map_some']
  rw [setCell_same]
  decide

/-- C1 (amended): formula preservation holds for all mapped-field updates
performed through `_update_cell` when `preserve_formulas` is enabled — a cell
holding a formula string is never overwritten by `update_cvr_with_pnl`
except for the timestamp cell `A1`, nor by `update_cvr_with_invoice` except
for `A1` and the payment-tracking block `E1, E2, F2, E3, F3, E4, F4`, which
are overwritten unconditionally. -/
theorem C1_formula_cells_preserved_amended :
    ∀ (rules : UpdateRules) (jc : String) (sheet : Sheet) (now addr : String),
    rules.update_conditions.preserve_formulas = true →
    isFormula (sheet addr) = true →
    (∀ pnl : List (String × PnlJobData), addr ≠ "A1" →
      ((okSheet (update_cvr_with_pnl rules pnl jc sheet now)).map
        (fun s => s addr)).getD (sheet addr) = sheet addr) ∧
    (∀ inv : List (String × InvJobData),
      addr ∉ (["A1", "E1", "E2", "F2", "E3", "F3", "E4", "F4"] : List String) →
      ((okSheet (update_cvr_with_invoice rules inv jc sheet now)).map
        (fun s => s addr)).getD (sheet addr) = sheet addr) := by
  intro rules jc sheet now addr hp hf
  have step : ∀ (t : Sheet) (k : String) (v : Rat), t addr = sheet addr →
      (updateCell rules t k v).1 addr = sheet addr := by
    intro t k v ht
    rw [updateCell_keeps_formula_cell rules t k v addr hp (by rw [ht]; exact hf), ht]
  constructor
  · intro pnl hA1
    cases hlk : List.lookup jc pnl with
    | none => simp [update_cvr_with_pnl, hlk, okSheet]
    | some jd =>
      simp only [update_cvr_with_pnl, hlk, okSheet, Option.map_some', Option.getD_some]
      rw [setCell_ne _ _ _ _ hA1]
      exact step _ _ _ (step _ _ _ (step _ _ _ (step _ _ _ (step _ _ _ rfl))))
  · intro inv hmem
    cases hlk : List.lookup jc inv with
    | none => simp [update_cvr_with_invoice, hlk, okSheet]
    | some jd =>
      simp only [update_cvr_with_invoice, hlk]
      cases hm : invoiceMarginStep rules
          (updateCell rules sheet "total_invoiced" jd.total_invoiced).1 with
      | error e => simp [okSheet]
      | ok p2 =>
        dsimp only
        simp only [okSheet, Option.map_some', Option.getD_some]
        rw [writePaymentBlock_frame _ _ _ _ hmem]
        have h1 : (updateCell rules sheet "total_invoiced" jd.total_invoiced).1 addr
            = sheet addr := step _ _ _ rfl
        have hf1 : isFormula
            ((updateCell rules sheet "total_invoiced" jd.total_invoiced).1 addr) = true := by
          rw [h1]; exact hf
        exact (invoiceMarginStep_keeps_formula_cell rules _ addr hp hf1 p2 hm).trans h1

/-- Witness for the amended C1 at a concrete input. -/
theorem C1_witness :
    defaultUpdateRules.update_conditions.preserve_formulas = true ∧
    isFormula (sheetC1wit "C5") = true ∧
    ((okSheet (update_cvr_with_pnl defaultUpdateRules
        [("J1", (⟨5, []⟩ : PnlJobData))] "J1" sheetC1wit "TS")).map
      (fun s => s "C5")).getD (sheetC1wit "C5") = sheetC1wit "C5" ∧
    ((okSheet (update_cvr_with_invoice defaultUpdateRules
        [("J1", (⟨5, 1, 1, 1⟩ : InvJobData))] "J1" sheetC1wit "TS")).map
      (fun s => s "C5")).getD (sheetC1wit "C5") = sheetC1wit "C5" := by
  have hform : isFormula (sheetC1wit "C5") = true := by decide
  have h := C1_formula_cells_preserved_amended defaultUpdateRules "J1" sheetC1wit "TS" "C5"
    rfl hform
  exact ⟨rfl, hform, h.1 [("J1", ⟨5, []⟩)] (by decide), h.2 [("J1", ⟨5, 1, 1, 1⟩)] (by decide)⟩

/-! ## Claim C2 -/

lemma any_label_free (b : Bool) (l : String) (v : Rat)
    (hl : (l == "Total costs") = false) :
    (if b then [(l, v)] else []).any (fun e => e.1 == "Total costs") = false := by
  cases b <;> simp [hl]

/-- C2: with `only_positive_values` active, an update carrying a negative
aggregate value, and likewise one whose field key has no cell mapping, leaves
the sheet unchanged and reports `False`; at the `update_cvr_with_pnl` level
(default rules), a negative `total_expenses` leaves the mapped cell `C5` at
its prior value and the "Total costs" line absent from the returned
`updates` list. -/
theorem C2_negative_and_unmapped_updates_skipped :
    (∀ (rules : UpdateRules) (sheet : Sheet) (k : String) (v : Rat),
      rules.update_conditions.only_positive_values = true → v < 0 →
      updateCell rules sheet k v = (sheet, false)) ∧
    (∀ (rules : UpdateRules) (sheet : Sheet) (k : String) (v : Rat),
      List.lookup k rules.cell_mappings = none →
      updateCell rules sheet k v = (sheet, false)) ∧
    (∀ (pnl : List (String × PnlJobData)) (jc : String) (jd : PnlJobData)
        (sheet : Sheet) (now : String),
      List.lookup jc pnl = some jd → jd.total_expenses < 0 →
      (okSheet (update_cvr_with_pnl defaultUpdateRules pnl jc sheet now)).map
          (fun s => s "C5") = some (sheet "C5") ∧
      (okUpdates (update_cvr_with_pnl defaultUpdateRules pnl jc sheet now)).map
          (fun us => us.any (fun e => e.1 == "Total costs")) = some false) := by
  refine ⟨fun rules sheet k v hpos hneg => (updateCell_skips rules sheet k v).1 hpos hneg,
    fun rules sheet k v h => (updateCell_skips rules sheet k v).2 h, ?_⟩
  intro pnl jc jd sheet now hlk hneg
  have hskip : updateCell defaultUpdateRules sheet "total_costs" jd.total_expenses
      = (sheet, false) := (updateCell_skips _ _ _ _).1 rfl hneg
  have hm2 : List.lookup "material_costs" defaultUpdateRules.cell_mappings = some "C6" := rfl
  have hm3 : List.lookup "labour_costs" defaultUpdateRules.cell_mappings = some "C7" := rfl
  have hm4 : List.lookup "plant_costs" defaultUpdateRules.cell_mappings = some "C8" := rfl
  have hm5 : List.lookup "subcontract_costs" defaultUpdateRules.cell_mappings = some "C9" := rfl
  constructor
  · simp only [update_cvr_with_pnl, hlk, okSheet, Option.map_some', Option.some.injEq]
    rw [hskip]
    rw [setCell_ne _ _ _ _ (by decide)]
    rw [updateCell_frame _ _ _ _ _ _ hm5 (by decide),
      updateCell_frame _ _ _ _ _ _ hm4 (by decide),
      updateCell_frame _ _ _ _ _ _ hm3 (by decide),
      updateCell_frame _ _ _ _ _ _ hm2 (by decide)]
  · simp only [update_cvr_with_pnl, hlk, okUpdates, Option.map_some', Option.some.injEq]
    rw [hskip]
    dsimp only
    simp only [Bool.false_eq_true, if_false, List.nil_append, List.any_append]
    split_ifs <;> simp

/-- Witness for C2 at a concrete input. -/
theorem C2_witness :
    List.lookup "J1" [("J1", pnlJdC2)] = some pnlJdC2 ∧
    pnlJdC2.total_expenses < 0 ∧
    ((okSheet (update_cvr_with_pnl defaultUpdateRules [("J1", pnlJdC2)] "J1"
        (fun _ => .empty) "TS")).map (fun s => s "C5") = some ((fun _ => CellValue.empty) "C5") ∧
     (okUpdates (update_cvr_with_pnl defaultUpdateRules [("J1", pnlJdC2)] "J1"
        (fun _ => .empty) "TS")).map
        (fun us => us.any (fun e => e.1 == "Total costs")) = some false) := by
  have h1 : List.lookup "J1" [("J1", pnlJdC2)] = some pnlJdC2 := rfl
  have h2 : pnlJdC2.total_expenses < 0 := by norm_num [pnlJdC2]
  exact ⟨h1, h2,
    C2_negative_and_unmapped_updates_skipped.2.2 [("J1", pnlJdC2)] "J1" pnlJdC2
      (fun _ => .empty) "TS" h1 h2⟩

/-! ## Claim C10 -/

/-- C10: on every invoice-data update that completes, the payment-tracking
block `E1, E2, F2, E3, F3, E4, F4` and the `A1` timestamp cell are
overwritten unconditionally — for every rule configuration, every prior
sheet content (formulas included), and every payload (negative values
included), independently of whether any mapped field was updated. -/
theorem C10_payment_block_overwritten_unconditionally :
    ∀ (rules : UpdateRules) (inv : List (String × InvJobData)) (jc : String)
      (jd : InvJobData) (sheet : Sheet) (now : String),
    List.lookup jc inv = some jd →
    (okSheet (update_cvr_with_invoice rules inv jc sheet now)).isSome = true →
    (okSheet (update_cvr_with_invoice rules inv jc sheet now)).map (fun s => s "E1")
        = some (.str "Payment Tracking") ∧
    (okSheet (update_cvr_with_invoice rules inv jc sheet now)).map (fun s => s "E2")
        = some (.str "Total Paid") ∧
    (okSheet (update_cvr_with_invoice rules inv jc sheet now)).map (fun s => s "F2")
        = some (.num jd.total_paid) ∧
    (okSheet (update_cvr_with_invoice rules inv jc sheet now)).map (fun s => s "E3")
        = some (.str "Outstanding Balance") ∧
    (okSheet (update_cvr_with_invoice rules inv jc sheet now)).map (fun s => s "F3")
        = some (.num jd.outstanding_balance) ∧
    (okSheet (update_cvr_with_invoice rules inv jc sheet now)).map (fun s => s "E4")
        = some (.str "Payment Rate") ∧
    (okSheet (update_cvr_with_invoice rules inv jc sheet now)).map (fun s => s "F4")
        = some (.str (ratFixed 1 jd.payment_rate ++ "%")) ∧
    (okSheet (update_cvr_with_invoice rules inv jc sheet now)).map (fun s => s "A1")
        = some (.str ("Last updated: " ++ now)) := by
  intro rules inv jc jd sheet now hlk hok
  simp only [update_cvr_with_invoice, hlk] at hok ⊢
  cases hm : invoiceMarginStep rules
      (updateCell rules sheet "total_invoiced" jd.total_invoiced).1 with
  | error e =>
    rw [hm] at hok
    simp [okSheet] at hok
  | ok p2 =>
    dsimp only
    simp only [okSheet, Option.map_some', Option.some.injEq]
    have hc := writePaymentBlock_cells p2.1 jd now
    exact ⟨hc.1, hc.2.1, hc.2.2.1, hc.2.2.2.1, hc.2.2.2.2.1, hc.2.2.2.2.2.1,
      hc.2.2.2.2.2.2.1, hc.2.2.2.2.2.2.2⟩

/-- Witness for C10 at a concrete input. -/
theorem C10_witness :
    List.lookup "J1" [("J1", invJdC10)] = some invJdC10 ∧
    (okSheet (update_cvr_with_invoice defaultUpdateRules [("J1", invJdC10)] "J1"
        sheetC10 "TS")).isSome = true ∧
    (okSheet (update_cvr_with_invoice defaultUpdateRules [("J1", invJdC10)] "J1"
        sheetC10 "TS")).map (fun s => s "F2") = some (.num invJdC10.total_paid) ∧
    (okSheet (update_cvr_with_invoice defaultUpdateRules [("J1", invJdC10)] "J1"
        sheetC10 "TS")).map (fun s => s "A1") = some (.str ("Last updated: " ++ "TS")) := by
  have h1 : List.lookup "J1" [("J1", invJdC10)] = some invJdC10 := rfl
  have hskip : updateCell defaultUpdateRules sheetC10 "total_invoiced" invJdC10.total_invoiced
      = (sheetC10, false) := (updateCell_skips _ _ _ _).1 rfl (by norm_num [invJdC10])
  have h2 : (okSheet (update_cvr_with_invoice defaultUpdateRules [("J1", invJdC10)] "J1"
      sheetC10 "TS")).isSome = true := by
    simp only [update_cvr_with_invoice, h1, hskip]
    simp [invoiceMarginStep, sheetC10, okSheet]
  have h := C10_payment_block_overwritten_unconditionally defaultUpdateRules
    [("J1", invJdC10)] "J1" invJdC10 sheetC10 "TS" h1 h2
  exact ⟨h1, h2, h.2.2.1, h.2.2.2.2.2.2.2⟩

/-! ## Claim C4 -/

/-- C4: the tier function `_get_alert_level` and the percentage convention do
behave as the claim's examples state (950/1000 is `critical`, 1000/1000 is
`exceeded`, 0/1000 is `normal`, and a zero budget yields percentage 0 rather
than an error) — but `check_job_budgets` itself never computes them: on the
claim's own example (budget £1000, actual £950) it raises `AttributeError`,
because it reads `budget.amount` while the model field is
`budgeted_amount`. -/
theorem C4_budget_evaluation_tiers :
    check_job_budgets defaultAlertThresholds
        [{ job_id := 1, category := "material", budgeted_amount := 1000 }]
        [{ job_id := 1, category := "material", amount := 950 }]
      = .error "AttributeError: 'Budget' object has no attribute 'amount'" ∧
    get_alert_level defaultAlertThresholds (percentage_used 950 1000) = "critical" ∧
    get_alert_level defaultAlertThresholds (percentage_used 1000 1000) = "exceeded" ∧
    get_alert_level defaultAlertThresholds (percentage_used 0 1000) = "normal" ∧
    percentage_used 123 0 = 0 := by
  refine ⟨?_, ?_, ?_, ?_, ?_⟩
  · simp [check_job_budgets, budgetRowAmountAttr, Bind.bind, Except.bind]
  · norm_num [get_alert_level, percentage_used, defaultAlertThresholds]
  · norm_num [get_alert_level, percentage_used, defaultAlertThresholds]
  · norm_num [get_alert_level, percentage_used, defaultAlertThresholds]
  · norm_num [percentage_used]

/-! ## Substring facts for the dedup message matching -/

lemma listStarts_append (l rest : List Char) : listStarts (l ++ rest) l = true := by
  induction l with
  | nil => simp [listStarts]
  | cons c cs ih => simp [listStarts, ih]

lemma listHas_of_starts (hay needle : List Char) (h : listStarts hay needle = true) :
    listHas hay needle = true := by
  cases hay with
  | nil => simpa [listHas] using h
  | cons c t => simp [listHas, h]

lemma listHas_append_mid (pre mid post : List Char) :
    listHas (pre ++ (mid ++ post)) mid = true := by
  induction pre with
  | nil => exact listHas_of_starts _ _ (listStarts_append mid post)
  | cons c p ih => simp [listHas, ih]

/-- A message of the form `pre ++ subject ++ post` passes the
`contains(subject)` dedup test. -/
lemma strContains_sandwich (pre mid post : String) :
    strContains (pre ++ mid ++ post) mid = true := by
  unfold strContains
  have hd : (pre ++ mid ++ post).data = pre.data ++ (mid.data ++ post.data) := by
    simp [String.data_append, List.append_assoc]
  rw [hd]
  exact listHas_append_mid _ _ _

lemma mkBudgetAlertMessage_contains (o : OverrunInfo) :
    strContains (mkBudgetAlertMessage o) o.category = true := by
  unfold strContains mkBudgetAlertMessage
  have hd : ("Budget overrun in " ++ o.category ++ ": £" ++ ratFixed 2 o.overrun ++
      " over budget (" ++ ratFixed 1 o.percentage_over ++ "%)").data
      = "Budget overrun in ".data ++ (o.category.data ++ (": £" ++ ratFixed 2 o.overrun ++
        " over budget (" ++ ratFixed 1 o.percentage_over ++ "%)").data) := by
    simp [String.data_append, List.append_assoc]
  rw [hd]
  exact listHas_append_mid _ _ _

lemma mkInvoiceAlertMessage_contains (now : Int) (i : InvoiceRow) :
    strContains (mkInvoiceAlert now i).message i.invoice_number = true := by
  unfold strContains mkInvoiceAlert
  have hd : ("Invoice " ++ i.invoice_number ++ " is " ++ toString (now - i.due_date) ++
      " days overdue (£" ++ ratFixed 2 i.amount ++ ")").data
      = "Invoice ".data ++ (i.invoice_number.data ++ (" is " ++ toString (now - i.due_date) ++
        " days overdue (£" ++ ratFixed 2 i.amount ++ ")").data) := by
    simp [String.data_append, List.append_assoc]
  rw [hd]
  exact listHas_append_mid _ _ _

/-- A freshly created budget-overrun alert satisfies its own dedup query. -/
lemma matches_mkBudgetAlert (job_id : Nat) (o : OverrunInfo) :
    matchesLiveAlert job_id o.category "budget_overrun" (mkBudgetAlert job_id o) = true := by
  simp [matchesLiveAlert, mkBudgetAlert, mkBudgetAlertMessage_contains]

/-! ## Claim C3 -/

lemma processOverruns_mem_db (job_id : Nat) (os : List OverrunInfo) :
    ∀ (db created : List AlertRow) (a : AlertRow), a ∈ db →
    a ∈ (processOverruns job_id os db created).1 := by
  induction os with
  | nil => intro db created a ha; exact ha
  | cons o os ih =>
    intro db created a ha
    simp only [processOverruns]
    split
    · exact ih db created a ha
    · exact ih _ _ a (List.mem_append_left _ ha)

lemma processOverruns_covers (job_id : Nat) (os : List OverrunInfo) :
    ∀ (db created : List AlertRow), ∀ o ∈ os,
    ∃ a ∈ (processOverruns job_id os db created).1,
      matchesLiveAlert job_id o.category "budget_overrun" a = true := by
  induction os with
  | nil => intro db created o ho; exact absurd ho (List.not_mem_nil o)
  | cons o1 os ih =>
    intro db created o ho
    simp only [processOverruns]
    rcases List.mem_cons.mp ho with rfl | hmem
    · split
      next a heq =>
        exact ⟨a, processOverruns_mem_db _ _ _ _ a (List.mem_of_find?_eq_some heq),
          List.find?_some heq⟩
      next heq =>
        exact ⟨mkBudgetAlert job_id o,
          processOverruns_mem_db _ _ _ _ _ (List.mem_append_right _ (List.mem_singleton_self _)),
          matches_mkBudgetAlert job_id o⟩
    · split
      · exact ih _ _ o hmem
      · exact ih _ _ o hmem

lemma processOverruns_stable (job_id : Nat) (os : List OverrunInfo) :
    ∀ (db created : List AlertRow),
    (∀ o ∈ os, ∃ a ∈ db, matchesLiveAlert job_id o.category "budget_overrun" a = true) →
    processOverruns job_id os db created = (db, created) := by
  induction os with
  | nil => intro db created _; rfl
  | cons o1 os ih =>
    intro db created h
    obtain ⟨a, hadb, hmatch⟩ := h o1 (List.mem_cons_self _ _)
    simp only [processOverruns]
    cases hf : db.find? (matchesLiveAlert job_id o1.category "budget_overrun") with
    | none =>
      rw [List.find?_eq_none] at hf
      exact absurd hmatch (by simpa using hf a hadb)
    | some a2 =>
      exact ih db created (fun o ho => h o (List.mem_cons_of_mem _ ho))

/-- C3: calling `check_and_create_budget_alerts` twice in succession for the
same job, without acknowledging anything in between, is idempotent: the
second call creates no alert and leaves the alerts table exactly as the
first call left it, because every overrun is already covered by a live
(unacknowledged) `budget_overrun` alert for that job whose message contains
the category name. -/
theorem C3_second_run_creates_no_duplicate_alerts :
    ∀ (budgets : List BudgetRow) (expenses : List ExpenseRow) (alerts : List AlertRow)
      (job_id : Nat) (db1 created1 : List AlertRow),
    check_and_create_budget_alerts budgets expenses alerts job_id = .ok (db1, created1) →
    check_and_create_budget_alerts budgets expenses db1 job_id = .ok (db1, []) := by
  intro budgets expenses alerts job_id db1 created1 h
  unfold check_and_create_budget_alerts at h ⊢
  cases ho : check_budget_overruns budgets expenses job_id with
  | error e =>
    rw [ho] at h
    dsimp only at h
    exact absurd h (by simp)
  | ok os =>
    rw [ho] at h
    dsimp only at h ⊢
    simp only [Except.ok.injEq] at h
    have hcov : ∀ o ∈ os, ∃ a ∈ db1,
        matchesLiveAlert job_id o.category "budget_overrun" a = true := by
      intro o hoo
      obtain ⟨a, hmem, hm⟩ := processOverruns_covers job_id os alerts [] o hoo
      rw [h] at hmem
      exact ⟨a, by simpa using hmem, hm⟩
    rw [processOverruns_stable job_id os db1 [] hcov]

/-- Witness for C3 at a concrete input: the first call creates the alert, the
second call — applied through the theorem — creates nothing. -/
theorem C3_witness :
    check_and_create_budget_alerts budgetsC3 expensesC3 [] 1 = .ok ([alertC3], [alertC3]) ∧
    check_and_create_budget_alerts budgetsC3 expensesC3 [alertC3] 1 = .ok ([alertC3], []) := by
  have h1 : check_and_create_budget_alerts budgetsC3 expensesC3 [] 1
      = .ok ([alertC3], [alertC3]) := by
    norm_num [check_and_create_budget_alerts, check_budget_overruns, actualSpend,
      budgetsC3, expensesC3, processOverruns, overC3, alertC3, List.foldlM, List.filter,
      List.find?]
  exact ⟨h1,
    C3_second_run_creates_no_duplicate_alerts budgetsC3 expensesC3 [] 1 [alertC3] [alertC3] h1⟩

/-! ## Claim C5 -/

lemma processOverruns_created_shape (job_id : Nat) (os : List OverrunInfo) :
    ∀ (db created : List AlertRow), ∀ a ∈ (processOverruns job_id os db created).2,
    a ∈ created ∨ ∃ o ∈ os, a = mkBudgetAlert job_id o := by
  induction os with
  | nil => intro db created a ha; exact .inl ha
  | cons o1 os ih =>
    intro db created a ha
    simp only [processOverruns] at ha
    split at ha
    · rcases ih _ _ a ha with h | ⟨o, ho, rfl⟩
      · exact .inl h
      · exact .inr ⟨o, List.mem_cons_of_mem _ ho, rfl⟩
    · rcases ih _ _ a ha with h | ⟨o, ho, rfl⟩
      · rcases List.mem_append.mp h with h | h
        · exact .inl h
        · exact .inr ⟨o1, List.mem_cons_self _ _, by simpa using h⟩
      · exact .inr ⟨o, List.mem_cons_of_mem _ ho, rfl⟩

lemma processOverdue_created_shape (now : Int) (inv : List InvoiceRow) :
    ∀ (db created : List AlertRow), ∀ a ∈ (processOverdue now inv db created).2,
    a ∈ created ∨ ∃ i ∈ inv, a = mkInvoiceAlert now i := by
  induction inv with
  | nil => intro db created a ha; exact .inl ha
  | cons i1 rest ih =>
    intro db created a ha
    simp only [processOverdue] at ha
    split at ha
    · rcases ih _ _ a ha with h | ⟨i, hi, rfl⟩
      · exact .inl h
      · exact .inr ⟨i, List.mem_cons_of_mem _ hi, rfl⟩
    · rcases ih _ _ a ha with h | ⟨i, hi, rfl⟩
      · rcases List.mem_append.mp h with h | h
        · exact .inl h
        · exact .inr ⟨i1, List.mem_cons_self _ _, by simpa using h⟩
      · exact .inr ⟨i, List.mem_cons_of_mem _ hi, rfl⟩

/-- C5: every alert persisted by `check_and_create_budget_alerts` is the
alert of one of the computed overruns, with severity `high` exactly when its
percent-over-budget exceeds 20 and `medium` otherwise; every alert persisted
by `check_and_create_invoice_alerts` is the alert of one of the overdue
invoices, with severity `high` exactly when it is more than 30 days overdue
and `medium` otherwise. -/
theorem C5_persisted_alert_severity :
    (∀ (budgets : List BudgetRow) (expenses : List ExpenseRow) (alerts : List AlertRow)
       (job_id : Nat) (os : List OverrunInfo) (db1 created1 : List AlertRow),
      check_budget_overruns budgets expenses job_id = .ok os →
      check_and_create_budget_alerts budgets expenses alerts job_id = .ok (db1, created1) →
      ∀ a ∈ created1, ∃ o ∈ os, a = mkBudgetAlert job_id o ∧
        a.severity = (if o.percentage_over > 20 then "high" else "medium")) ∧
    (∀ (invoices : List InvoiceRow) (alerts : List AlertRow) (job_id : Option Nat)
       (now : Int) (db1 created1 : List AlertRow),
      check_and_create_invoice_alerts invoices alerts job_id now = (db1, created1) →
      ∀ a ∈ created1, ∃ i ∈ get_overdue_invoices invoices now job_id,
        a = mkInvoiceAlert now i ∧
        a.severity = (if now - i.due_date > 30 then "high" else "medium")) := by
  constructor
  · intro budgets expenses alerts job_id os db1 created1 ho h a ha
    unfold check_and_create_budget_alerts at h
    rw [ho] at h
    dsimp only at h
    simp only [Except.ok.injEq] at h
    have hc1 : created1 = (processOverruns job_id os alerts []).2 := by rw [h]
    rw [hc1] at ha
    rcases processOverruns_created_shape job_id os alerts [] a ha with hin | ⟨o, hoin, rfl⟩
    · exact absurd hin (List.not_mem_nil a)
    · exact ⟨o, hoin, rfl, rfl⟩
  · intro invoices alerts job_id now db1 created1 h a ha
    unfold check_and_create_invoice_alerts at h
    have hc1 : created1
        = (processOverdue now (get_overdue_invoices invoices now job_id) alerts []).2 := by
      rw [h]
    rw [hc1] at ha
    rcases processOverdue_created_shape now (get_overdue_invoices invoices now job_id)
        alerts [] a ha with hin | ⟨i, hiin, rfl⟩
    · exact absurd hin (List.not_mem_nil a)
    · exact ⟨i, hiin, rfl, rfl⟩

/-- Witness for C5 at concrete inputs: a 50%-over budget overrun yields a
`high` alert, a 10-days-overdue invoice yields a `medium` alert. -/
theorem C5_witness :
    check_budget_overruns budgetsC5 expensesC5 2 = .ok [overC5] ∧
    check_and_create_budget_alerts budgetsC5 expensesC5 [] 2
      = .ok ([mkBudgetAlert 2 overC5], [mkBudgetAlert 2 overC5]) ∧
    (mkBudgetAlert 2 overC5).severity = "high" ∧
    check_and_create_invoice_alerts [invC5] [] (some 3) 110
      = ([mkInvoiceAlert 110 invC5], [mkInvoiceAlert 110 invC5]) ∧
    (mkInvoiceAlert 110 invC5).severity = "medium" := by
  have h1 : check_budget_overruns budgetsC5 expensesC5 2 = .ok [overC5] := by
    norm_num [check_budget_overruns, actualSpend, budgetsC5, expensesC5, overC5,
      List.foldlM, List.filter]
  have h2 : check_and_create_budget_alerts budgetsC5 expensesC5 [] 2
      = .ok ([mkBudgetAlert 2 overC5], [mkBudgetAlert 2 overC5]) := by
    unfold check_and_create_budget_alerts
    rw [h1]
    dsimp only
    simp [processOverruns, List.find?]
  have h3 : check_and_create_invoice_alerts [invC5] [] (some 3) 110
      = ([mkInvoiceAlert 110 invC5], [mkInvoiceAlert 110 invC5]) := by
    norm_num [check_and_create_invoice_alerts, get_overdue_invoices, invC5,
      processOverdue, List.filter, List.find?]
  obtain ⟨o, hoin, -, hs⟩ := C5_persisted_alert_severity.1 budgetsC5 expensesC5 [] 2
    [overC5] [mkBudgetAlert 2 overC5] [mkBudgetAlert 2 overC5] h1 h2
    (mkBudgetAlert 2 overC5) (List.mem_singleton_self _)
  obtain ⟨i, hiin, -, hsi⟩ := C5_persisted_alert_severity.2 [invC5] [] (some 3) 110
    [mkInvoiceAlert 110 invC5] [mkInvoiceAlert 110 invC5] h3
    (mkInvoiceAlert 110 invC5) (List.mem_singleton_self _)
  have ho : o = overC5 := by simpa using hoin
  have hi : i = invC5 := by
    simpa [get_overdue_invoices, invC5, List.filter] using hiin
  refine ⟨h1, h2, ?_, h3, ?_⟩
  · rw [hs, ho]
    norm_num [overC5]
  · rw [hsi, hi]
    norm_num [invC5]

/-! ## Claim C6 -/

/-- C6: the classifier's keyword sets are tested in the claimed priority
order, but five of its six return statements name enum members
(`materials`, `labor`, `subcontractors`, `transport`, `other`) that
`models.ExpenseCategory` does not define, so the classifier raises
`AttributeError` instead of returning a category on every description except
plant/machinery ones: a labour-keyword description raises instead of
returning `labour`; a description matching both material and labour keywords
still reaches the material branch first (priority order intact) and raises
there; only the plant branch returns; the default branch raises too. -/
theorem C6_classifier_enum_members_missing :
    categorize_expense "wages" = .error "AttributeError: labor" ∧
    categorize_expense "material and labour" = .error "AttributeError: materials" ∧
    categorize_expense "equipment hire" = .ok ExpenseCategory.plant_machinery ∧
    categorize_expense "sundries" = .error "AttributeError: other" := by
  decide

/-! ## Claim C7 -/

/-- C7: job-code extraction does recognise `"JOB001-Main Road"` as `JOB001`
via the JOB-digits pattern, and summary rows and zero cells are skipped —
but the claimed expense line item is never produced: classifying the
account name `"Materials"` raises `AttributeError` (`ExpenseCategory` has no
member `materials`), the per-cell handler counts the row as skipped, and
`process_pnl_data` returns zero processed expenses where the claim promises
one item (JOB001, material, 150.0). -/
theorem C7_pnl_normalisation_drops_material_rows :
    extract_job_code_from_class "JOB001-Main Road" = some "JOB001" ∧
    process_pnl_data (fun _ => some 1) dfC7
      = { processed_count := 0, skipped_count := 1, expenses := [] } ∧
    process_pnl_data (fun _ => some 1) dfC7b
      = { processed_count := 0, skipped_count := 0, expenses := [] } ∧
    categorize_expense "Materials" = .error "AttributeError: materials" := by
  decide

/-! ## Claim C8 -/

/-- C8: a row-oriented invoice file missing the required column `Type`
normalises successfully — `success = True`, no error, and a full normalised
result for `JOB001` is returned — where the claim promises a `ParseError`
naming the missing columns and no partial result.  The `required_columns`
list declared in `InvoiceParser.__init__` is dead: no code path reads it. -/
theorem C8_missing_required_column_not_validated :
    (parse_invoice_file 19750 dfC8).success = true ∧
    (parse_invoice_file 19750 dfC8).error = none ∧
    (List.lookup "JOB001" (parse_invoice_file 19750 dfC8).data).isSome = true := by
  refine ⟨?_, ?_, ?_⟩ <;> decide

/-! ## Claim C9 -/

/-- C9: with no explicit template, `process_all_jobs_cvr` does select the
lexicographically last `.xlsx` of the templates directory, and with zero
data rows it saves the result as `cvr_processed_<UTC timestamp>.xlsx` — but
for any template with at least one data row the pass never overwrites the
five columns: its metrics call `get_job_detail_metrics(db, job_code=...)`
does not match the function's `(db, job_id)` signature and raises
`TypeError` at the first row. -/
theorem C9_batch_pass_raises_on_first_data_row :
    (sortStrs filesC9).getLast? = some "CVR_Templates/cvr_2024.xlsx" ∧
    process_all_jobs_cvr filesC9 none
        (fun p => if p = "CVR_Templates/cvr_2024.xlsx" then some wbC9 else none)
        "20240101_120000"
      = .error
        "TypeError: get_job_detail_metrics() got an unexpected keyword argument 'job_code'" ∧
    process_all_jobs_cvr filesC9 none
        (fun p => if p = "CVR_Templates/cvr_2024.xlsx" then some wbC9empty else none)
        "20240101_120000"
      = .ok ("cvr_processed_20240101_120000.xlsx", wbC9empty) := by
  refine ⟨by decide, ?_, ?_⟩
  · decide
  · decide

end NDA
